import Mathlib

/-!
# Task-Management-App: verification of the authorization pipeline and entity rules

Shallow embedding of the parts of the repository the claims are about:

* `UserRole`, `TaskStatus`, `STATUS_TRANSITIONS` — `src/common/constants`
  (role and task-status constant files).
* `RolesGuard.canActivate` — `src/common/guards/roles.guard.ts`.
* `JwtAuthGuard` (`handleRequest`, `canActivate`) — `src/common/guards/jwt-auth.guard.ts`.
* `JwtStrategy.validate` — `src/modules/auth/strategies/jwt.strategy.ts`.
* `UsersService.update` / `UsersService.remove` — `src/modules/users/users.service.ts`.
* `Comment.softDelete` / `Comment.restore` — `src/modules/comments/entities/comment.entity.ts`.

TypeScript is embedded as pure Lean functions: the TypeORM repository becomes a
`List User` (lookup by `find?`), thrown `HttpException`s become `Except` errors
carrying the exception kind and message, and `Date` timestamps become `Nat`.
JavaScript truthiness on optional string fields is modelled explicitly
(`undefined` and `""` are falsy).
-/

/-- `UserRole` enum from the role constants file. -/
inductive UserRole where
  | ADMIN
  | MANAGER
  | MEMBER
deriving DecidableEq, Repr, Fintype

/-- `TaskStatus` enum from the task-status constants file. -/
inductive TaskStatus where
  | TODO
  | IN_PROGRESS
  | IN_REVIEW
  | DONE
  | CANCELLED
deriving DecidableEq, Repr, Fintype

/-- `STATUS_TRANSITIONS` record from the task-status constants file: the
outgoing edge set of each status. -/
def STATUS_TRANSITIONS : TaskStatus → List TaskStatus
  | .TODO => [.IN_PROGRESS, .CANCELLED]
  | .IN_PROGRESS => [.IN_REVIEW, .TODO, .CANCELLED]
  | .IN_REVIEW => [.DONE, .IN_PROGRESS, .CANCELLED]
  | .DONE => []
  | .CANCELLED => []

/-- Task lifecycle error: the 400-class `InvalidTransition` failure of §4.5. -/
inductive TransitionError where
  | InvalidTransition
deriving DecidableEq, Repr

/-- The fields of a task the lifecycle operation touches (`task.entity.ts`):
`status` and `updatedAt`; `id` and `title` stand for the untouched rest. -/
structure TaskEntity where
  id : String
  title : String
  status : TaskStatus
  updatedAt : Nat
deriving DecidableEq, Repr

/-- Modelled from the spec: the `transition(task, requested)` operation of
§4.5 TaskLifecycle is not among the provided source files — only its
`STATUS_TRANSITIONS` table (which is source, above) is.  Per the spec it
fails with `InvalidTransition` if `requested` is not in the outgoing edge
set of `task.status`, and on success updates `status` and `updatedAt`,
leaving all other fields untouched. -/
def transition (t : TaskEntity) (requested : TaskStatus) (now : Nat) :
    Except TransitionError TaskEntity :=
  if (STATUS_TRANSITIONS t.status).contains requested then
    .ok { t with status := requested, updatedAt := now }
  else
    .error .InvalidTransition

/-- `User` entity (`user.entity.ts`), restricted to the fields the guards and
the users service read. -/
structure User where
  id : String
  email : String
  password : String
  firstName : String
  lastName : String
  role : UserRole
  isActive : Bool
  avatarUrl : Option String
deriving DecidableEq, Repr

/-- `RolesGuard.canActivate` (`roles.guard.ts`).  `requiredRoles` is the
`@Roles()` metadata (`none` when no decorator is attached), `user` is
`request.user` (`none` when no principal was attached).  The source's
`!user || !user.role` test collapses to the `none` case: in the embedding a
present principal always carries a role, as the enum column does.  Returning
`false` makes Nest deny the request with 403 Forbidden. -/
def RolesGuard.canActivate (requiredRoles : Option (List UserRole))
    (user : Option User) : Bool :=
  match requiredRoles with
  | none => true
  | some roles =>
    if roles.length = 0 then true
    else
      match user with
      | none => false
      | some u => roles.any fun role => u.role == role

/-- Authentication failure: Nest's `UnauthorizedException` (401) with its
message. -/
inductive AuthError where
  | Unauthenticated (msg : String)
deriving DecidableEq, Repr

/-- `JwtPayload` (`jwt-payload.interface.ts`). -/
structure JwtPayload where
  sub : String
  email : String
  role : UserRole
  iat : Option Nat
  exp : Option Nat
deriving DecidableEq, Repr

/-- `JwtStrategy.validate` (`jwt.strategy.ts`).  The injected TypeORM user
repository's `findOne({ where: { id } })` is embedded as the function
`findUser : String → Option User`. -/
def JwtStrategy.validate (findUser : String → Option User)
    (payload : JwtPayload) : Except AuthError User :=
  match findUser payload.sub with
  | none => .error (.Unauthenticated "User not found")
  | some user =>
    if !user.isActive then .error (.Unauthenticated "Account is inactive")
    else .ok user

/-- `JwtAuthGuard.handleRequest` (`jwt-auth.guard.ts`): rethrows the strategy
error, or throws `UnauthorizedException('Invalid or expired token')` when no
user was produced. -/
def JwtAuthGuard.handleRequest (err : Option AuthError) (user : Option User) :
    Except AuthError User :=
  match err with
  | some e => .error e
  | none =>
    match user with
    | none => .error (.Unauthenticated "Invalid or expired token")
    | some u => .ok u

/-- Modelled from the spec: the passport `jwt` authentication step driven by
`super.canActivate` in `jwt-auth.guard.ts` lives in the external
`@nestjs/passport` / `passport-jwt` libraries, not in the provided sources.
Per §4.2 the credential, when present, goes through the opaque verify port
(`verify`); with no credential present, or a credential the port rejects,
no user is produced and the strategy is not consulted; a verified payload is
handed to `JwtStrategy.validate`, whose thrown error becomes `err`.  The
result pair `(err, user)` is what `handleRequest` receives. -/
def passportAuthenticate (verify : String → Option JwtPayload)
    (findUser : String → Option User) (credential : Option String) :
    Option AuthError × Option User :=
  match credential with
  | none => (none, none)
  | some tok =>
    match verify tok with
    | none => (none, none)
    | some payload =>
      match JwtStrategy.validate findUser payload with
      | .ok u => (none, some u)
      | .error e => (some e, none)

/-- Outcome of the authentication gate: allow (carrying the principal attached
to the request, if any) or deny with a 401. -/
inductive GateResult where
  | allow (principal : Option User)
  | deny (e : AuthError)
deriving DecidableEq, Repr

/-- `JwtAuthGuard.canActivate` (`jwt-auth.guard.ts`): if the route carries the
`@Public()` metadata (`isPublic`), pass without touching the credential and
with no principal resolved; otherwise run the passport step and
`handleRequest` on its outcome, attaching the returned user to the request. -/
def JwtAuthGuard.canActivate (isPublic : Bool)
    (verify : String → Option JwtPayload) (findUser : String → Option User)
    (credential : Option String) : GateResult :=
  if isPublic then .allow none
  else
    let res := passportAuthenticate verify findUser credential
    match JwtAuthGuard.handleRequest res.1 res.2 with
    | .ok u => .allow (some u)
    | .error e => .deny e

/-- HTTP exception kinds thrown by the users service
(`users.service.ts`), each with its message. -/
inductive HttpError where
  | NotFound (msg : String)
  | Forbidden (msg : String)
  | Conflict (msg : String)
deriving DecidableEq, Repr

/-- `UpdateUserDto` (`update-user.dto.ts`, in the unnamed source parts):
every field is optional — absent fields are not updated. -/
structure UpdateUserDto where
  email : Option String
  password : Option String
  firstName : Option String
  lastName : Option String
  role : Option UserRole
  isActive : Option Bool
  avatarUrl : Option String
deriving DecidableEq, Repr

/-- JavaScript truthiness of an optional string field: `undefined` and the
empty string are falsy. -/
def strTruthy : Option String → Bool
  | none => false
  | some s => s ≠ ""

/-- `UsersService.findOne` (`users.service.ts`): repository `findOne` by id,
throwing `NotFoundException` on a miss.  The repository is the list of
persisted users. -/
def UsersService.findOne (repo : List User) (id : String) :
    Except HttpError User :=
  match repo.find? (fun u => u.id == id) with
  | none => .error (.NotFound s!"User with ID {id} not found")
  | some u => .ok u

/-- `Object.assign(user, updateUserDto)`: each field present in the dto
overwrites the entity's field. -/
def applyUpdate (u : User) (dto : UpdateUserDto) : User :=
  { u with
    email := dto.email.getD u.email
    password := dto.password.getD u.password
    firstName := dto.firstName.getD u.firstName
    lastName := dto.lastName.getD u.lastName
    role := dto.role.getD u.role
    isActive := dto.isActive.getD u.isActive
    avatarUrl := if dto.avatarUrl.isSome then dto.avatarUrl else u.avatarUrl }

/-- `UsersService.update` (`users.service.ts`): find the target, deny
non-admins touching another user's profile, deny non-admins touching `role`
or `isActive` (the source tests `updateUserDto.role ||
updateUserDto.isActive !== undefined`; `role`, an enum of non-empty strings,
is truthy exactly when present), check email uniqueness when a truthy,
changed email is supplied, then assign and save. -/
def UsersService.update (repo : List User) (id : String)
    (dto : UpdateUserDto) (currentUser : User) : Except HttpError User :=
  match UsersService.findOne repo id with
  | .error e => .error e
  | .ok user =>
    let isOwnProfile := currentUser.id == id
    let isAdmin := currentUser.role == UserRole.ADMIN
    if !isOwnProfile && !isAdmin then
      .error (.Forbidden "You can only update your own profile")
    else if !isAdmin && (dto.role.isSome || dto.isActive.isSome) then
      .error (.Forbidden "Only admins can change roles or account status")
    else if strTruthy dto.email && dto.email.getD "" != user.email
        && (repo.find? (fun u => u.email == dto.email.getD "")).isSome then
      .error (.Conflict "Email already exists")
    else
      .ok (applyUpdate user dto)

/-- `UsersService.remove` (`users.service.ts`): only admins may delete, no
principal may delete itself (checked before the lookup), then find the
target and `repository.remove` it.  Returns the thrown exception or `ok`
paired with the repository state afterwards, so that "no removal happened"
is visible on the failure paths. -/
def UsersService.remove (repo : List User) (id : String)
    (currentUser : User) : Except HttpError Unit × List User :=
  if currentUser.role != UserRole.ADMIN then
    (.error (.Forbidden "Only admins can delete users"), repo)
  else if currentUser.id == id then
    (.error (.Forbidden "You cannot delete your own account"), repo)
  else
    match repo.find? (fun u => u.id == id) with
    | none => (.error (.NotFound s!"User with ID {id} not found"), repo)
    | some user => (.ok (), repo.erase user)

/-- `Comment` entity (`comment.entity.ts`), restricted to the fields the
helper methods touch. -/
structure Comment where
  id : String
  taskId : String
  userId : String
  parentId : Option String
  content : String
  isEdited : Bool
  isDeleted : Bool
  deletedAt : Option Nat
  createdAt : Nat
  updatedAt : Nat
deriving DecidableEq, Repr

/-- `Comment.softDelete(clearContent)` (`comment.entity.ts`): marks the
comment deleted, stamps `deletedAt = now`, and when `clearContent` is true
replaces `content` with the placeholder. -/
def Comment.softDelete (c : Comment) (clearContent : Bool) (now : Nat) :
    Comment :=
  let c := { c with isDeleted := true, deletedAt := some now }
  if clearContent then { c with content := "[deleted]" } else c

/-- `Comment.restore` (`comment.entity.ts`): clears `isDeleted` and
`deletedAt`; touches no other field. -/
def Comment.restore (c : Comment) : Comment :=
  { c with isDeleted := false, deletedAt := none }

/-- `OwnershipPolicy.canMutate` written from the spec's words (§4.4), as the
refinement target for the inlined ownership check in `UsersService.update`:
true iff `actor.id == targetOwnerId` or `actor.role ∈ adminOverride`. -/
def canMutateSpec (actor : User) (targetOwnerId : String)
    (adminOverride : List UserRole) : Bool :=
  actor.id == targetOwnerId || adminOverride.contains actor.role

/-- C1: for every pair of task statuses, requesting a transition fails with
`InvalidTransition` exactly when the requested status is not in the outgoing
edge set of the current status as given by `STATUS_TRANSITIONS`; when it is
in the set the transition succeeds and the resulting task's status equals
the requested status; and no status is in its own outgoing set, so
requesting the current status is always rejected as an invalid transition. -/
theorem transition_matches_table (t : TaskEntity) (requested : TaskStatus)
    (now : Nat) :
    (transition t requested now = .error .InvalidTransition ↔
      requested ∉ STATUS_TRANSITIONS t.status)
    ∧ (requested ∈ STATUS_TRANSITIONS t.status →
        ∃ t2, transition t requested now = .ok t2 ∧ t2.status = requested)
    ∧ (∀ s : TaskStatus, s ∉ STATUS_TRANSITIONS s) := by
  refine ⟨?_, ?_, by decide⟩
  · by_cases hmem : requested ∈ STATUS_TRANSITIONS t.status <;>
      simp [transition, List.contains, hmem]
  · intro hmem
    exact ⟨{ t with status := requested, updatedAt := now },
      by simp [transition, List.contains, hmem], rfl⟩

/-- Witness for C1 at a concrete input: from `TODO`, requesting
`IN_PROGRESS` succeeds with status `IN_PROGRESS`. -/
theorem transition_matches_table_witness :
    ∃ t2, transition ⟨"t1", "title", TaskStatus.TODO, 0⟩ TaskStatus.IN_PROGRESS 5
        = .ok t2 ∧ t2.status = TaskStatus.IN_PROGRESS :=
  (transition_matches_table ⟨"t1", "title", TaskStatus.TODO, 0⟩
    TaskStatus.IN_PROGRESS 5).2.1 (by decide)

/-- C3: the terminal states `DONE` and `CANCELLED` have an empty outgoing
transition set, and no transition request starting from either of them ever
succeeds — every such request fails with `InvalidTransition`. -/
theorem terminal_states_no_exit :
    STATUS_TRANSITIONS TaskStatus.DONE = []
    ∧ STATUS_TRANSITIONS TaskStatus.CANCELLED = []
    ∧ ∀ (t : TaskEntity) (requested : TaskStatus) (now : Nat),
        t.status = TaskStatus.DONE ∨ t.status = TaskStatus.CANCELLED →
        transition t requested now = .error .InvalidTransition := by
  refine ⟨rfl, rfl, ?_⟩
  intro t requested now h
  rcases h with h | h <;> simp [transition, h, STATUS_TRANSITIONS]

/-- Witness for C3 at a concrete input: from `DONE`, requesting
`IN_PROGRESS` fails with `InvalidTransition`. -/
theorem terminal_states_no_exit_witness :
    transition ⟨"t1", "title", TaskStatus.DONE, 0⟩ TaskStatus.IN_PROGRESS 5
      = .error .InvalidTransition :=
  terminal_states_no_exit.2.2 ⟨"t1", "title", TaskStatus.DONE, 0⟩
    TaskStatus.IN_PROGRESS 5 (Or.inl rfl)

/-- C2 counterexample: a principal whose role matches the required set but
whose `isActive` flag is false is still allowed by `RolesGuard.canActivate`
— the guard never reads `isActive`, refuting the claim that the gate allows
only when `p.active == true`. -/
theorem rolesGuard_allows_inactive_matching_principal :
    RolesGuard.canActivate (some [UserRole.ADMIN])
        (some ⟨"u1", "a@b.c", "pw", "Ada", "Admin", UserRole.ADMIN, false, none⟩)
      = true
    ∧ (⟨"u1", "a@b.c", "pw", "Ada", "Admin", UserRole.ADMIN, false, none⟩
        : User).isActive = false :=
  ⟨rfl, rfl⟩

/-- C2 (amended): for a route requiring the role set `{r}`,
`RolesGuard.canActivate` allows an attached principal `p` iff `p.role = r`,
and denies when no principal is attached; the principal's `active` flag is
never examined by this guard (flipping it changes no decision) — inactive
principals are rejected earlier, by the authentication gate. -/
theorem rolesGuard_matches_role_only (r : UserRole) (p : User) :
    (RolesGuard.canActivate (some [r]) (some p) = true ↔ p.role = r)
    ∧ RolesGuard.canActivate (some [r]) none = false
    ∧ ∀ (rs : Option (List UserRole)) (b : Bool),
        RolesGuard.canActivate rs (some { p with isActive := b })
          = RolesGuard.canActivate rs (some p) := by
  refine ⟨?_, rfl, ?_⟩
  · simp [RolesGuard.canActivate]
  · intro rs b
    cases rs with
    | none => rfl
    | some roles => simp [RolesGuard.canActivate]

/-- Witness for the amended C2 at a concrete input: a manager on a
manager-restricted route is allowed. -/
theorem rolesGuard_matches_role_only_witness :
    RolesGuard.canActivate (some [UserRole.MANAGER])
        (some ⟨"u2", "m@b.c", "pw", "Mo", "Mgr", UserRole.MANAGER, true, none⟩)
      = true :=
  (rolesGuard_matches_role_only UserRole.MANAGER
    ⟨"u2", "m@b.c", "pw", "Mo", "Mgr", UserRole.MANAGER, true, none⟩).1.mpr rfl

/-- C9: when no `RequiredRoles` metadata is attached (`none`), or the
attached required-role set is empty, `RolesGuard.canActivate` allows the
request unconditionally — for every principal state, including no principal
at all; the empty-set case is the explicit `length === 0` allow branch. -/
theorem rolesGuard_no_roles_allows (user : Option User) :
    RolesGuard.canActivate none user = true
    ∧ RolesGuard.canActivate (some []) user = true :=
  ⟨rfl, rfl⟩

/-- C4: a route marked Public passes the authentication gate with no
principal resolved, whatever credential is or is not presented (the
credential is never examined); a non-public route with no credential always
fails with a 401 `Unauthenticated` error, so the gate short-circuits and no
handler code runs. -/
theorem jwtAuthGuard_public_and_missing_credential
    (verify : String → Option JwtPayload) (findUser : String → Option User)
    (credential : Option String) :
    JwtAuthGuard.canActivate true verify findUser credential
      = .allow none
    ∧ ∃ msg, JwtAuthGuard.canActivate false verify findUser none
        = .deny (.Unauthenticated msg) :=
  ⟨rfl, "Invalid or expired token", rfl⟩

/-- C5: for every verified token payload, `JwtStrategy.validate` fails with
`Unauthenticated` when the repository holds no user under the payload's
subject id, fails with `Unauthenticated` when it holds an inactive user, and
otherwise returns the loaded user, which the guard attaches to the request. -/
theorem jwtStrategy_validate_spec (findUser : String → Option User)
    (payload : JwtPayload) :
    (findUser payload.sub = none →
      JwtStrategy.validate findUser payload
        = .error (.Unauthenticated "User not found"))
    ∧ (∀ u, findUser payload.sub = some u → u.isActive = false →
        JwtStrategy.validate findUser payload
          = .error (.Unauthenticated "Account is inactive"))
    ∧ (∀ u, findUser payload.sub = some u → u.isActive = true →
        JwtStrategy.validate findUser payload = .ok u) := by
  refine ⟨fun h => ?_, fun u hu hact => ?_, fun u hu hact => ?_⟩ <;>
    simp [JwtStrategy.validate, *]

/-- Witness for C5 at a concrete input: an existing active member is
returned by `validate`. -/
theorem jwtStrategy_validate_spec_witness :
    JwtStrategy.validate
        (fun _ => some ⟨"u1", "a@b.c", "pw", "Ada", "Lovelace",
          UserRole.MEMBER, true, none⟩)
        ⟨"u1", "a@b.c", UserRole.MEMBER, none, none⟩
      = .ok ⟨"u1", "a@b.c", "pw", "Ada", "Lovelace", UserRole.MEMBER, true, none⟩ :=
  (jwtStrategy_validate_spec
    (fun _ => some ⟨"u1", "a@b.c", "pw", "Ada", "Lovelace",
      UserRole.MEMBER, true, none⟩)
    ⟨"u1", "a@b.c", UserRole.MEMBER, none, none⟩).2.2
    ⟨"u1", "a@b.c", "pw", "Ada", "Lovelace", UserRole.MEMBER, true, none⟩ rfl rfl

/-- C6: the ownership decision of the user-update operation: the spec's
`canMutate` with admin-override set `{ADMIN}` is true iff the actor's id
equals the target owner id or the actor's role is `ADMIN`; and whenever it
is false, `UsersService.update` on an existing target denies with the
ownership `Forbidden` error. -/
theorem update_ownership_gate (repo : List User) (id : String)
    (dto : UpdateUserDto) (actor : User) :
    (canMutateSpec actor id [UserRole.ADMIN] = true ↔
      actor.id = id ∨ actor.role = UserRole.ADMIN)
    ∧ (canMutateSpec actor id [UserRole.ADMIN] = false →
        ∀ u, repo.find? (fun v => v.id == id) = some u →
          UsersService.update repo id dto actor
            = .error (.Forbidden "You can only update your own profile")) := by
  constructor
  · simp [canMutateSpec]
  · intro hcm u hu
    simp [canMutateSpec] at hcm
    obtain ⟨h1, h2⟩ := hcm
    simp [UsersService.update, UsersService.findOne, hu, h1, h2]

/-- Witness for C6 at a concrete input: a member updating another member's
profile is denied with the ownership Forbidden error. -/
theorem update_ownership_gate_witness :
    UsersService.update
        [⟨"u2", "b@b.c", "pw", "Bob", "B", UserRole.MEMBER, true, none⟩] "u2"
        ⟨none, none, none, none, none, none, none⟩
        ⟨"u1", "a@b.c", "pw", "Ann", "A", UserRole.MEMBER, true, none⟩
      = .error (.Forbidden "You can only update your own profile") :=
  (update_ownership_gate
    [⟨"u2", "b@b.c", "pw", "Bob", "B", UserRole.MEMBER, true, none⟩] "u2"
    ⟨none, none, none, none, none, none, none⟩
    ⟨"u1", "a@b.c", "pw", "Ann", "A", UserRole.MEMBER, true, none⟩).2 rfl
    ⟨"u2", "b@b.c", "pw", "Bob", "B", UserRole.MEMBER, true, none⟩ rfl

/-- C7: in `UsersService.update`, a non-admin actor touching a restricted
field (`role` or `isActive`) is denied with a `Forbidden` error on every
existing target, own profile included; a non-admin updating only
unrestricted fields of their own profile succeeds; an admin changing any
existing user's fields (in particular another user's `role`) succeeds. -/
theorem update_restricted_fields (repo : List User) (id : String)
    (dto : UpdateUserDto) (actor : User) :
    (actor.role ≠ UserRole.ADMIN →
      dto.role.isSome = true ∨ dto.isActive.isSome = true →
      ∀ u, repo.find? (fun v => v.id == id) = some u →
        ∃ msg, UsersService.update repo id dto actor
          = .error (.Forbidden msg))
    ∧ (∀ u, repo.find? (fun v => v.id == id) = some u →
        actor.id = id → actor.role ≠ UserRole.ADMIN →
        dto.role = none → dto.isActive = none → dto.email = none →
        UsersService.update repo id dto actor = .ok (applyUpdate u dto))
    ∧ (∀ u, repo.find? (fun v => v.id == id) = some u →
        actor.role = UserRole.ADMIN → dto.email = none →
        UsersService.update repo id dto actor = .ok (applyUpdate u dto)) := by
  refine ⟨fun hrole hfields u hu => ?_, fun u hu hown hrole hr hi he => ?_,
    fun u hu hrole he => ?_⟩
  · by_cases hown : actor.id = id
    · refine ⟨"Only admins can change roles or account status", ?_⟩
      rcases hfields with hf | hf <;>
        simp [UsersService.update, UsersService.findOne, hu, hown, hrole, hf]
    · exact ⟨"You can only update your own profile",
        by simp [UsersService.update, UsersService.findOne, hu, hown, hrole]⟩
  · simp [UsersService.update, UsersService.findOne, hu, hown, hrole, hr, hi,
      he, strTruthy]
  · simp [UsersService.update, UsersService.findOne, hu, hrole, he, strTruthy]

/-- Witness for C7 at a concrete input: an admin changing another user's
`role` to MANAGER succeeds. -/
theorem update_restricted_fields_witness :
    UsersService.update
        [⟨"u2", "b@b.c", "pw", "Bob", "B", UserRole.MEMBER, true, none⟩] "u2"
        ⟨none, none, none, none, some UserRole.MANAGER, none, none⟩
        ⟨"a1", "a@b.c", "pw", "Ada", "Admin", UserRole.ADMIN, true, none⟩
      = .ok (applyUpdate
          ⟨"u2", "b@b.c", "pw", "Bob", "B", UserRole.MEMBER, true, none⟩
          ⟨none, none, none, none, some UserRole.MANAGER, none, none⟩) :=
  (update_restricted_fields
    [⟨"u2", "b@b.c", "pw", "Bob", "B", UserRole.MEMBER, true, none⟩] "u2"
    ⟨none, none, none, none, some UserRole.MANAGER, none, none⟩
    ⟨"a1", "a@b.c", "pw", "Ada", "Admin", UserRole.ADMIN, true, none⟩).2.2
    ⟨"u2", "b@b.c", "pw", "Bob", "B", UserRole.MEMBER, true, none⟩ rfl rfl rfl

/-- C10: `UsersService.remove` denies with `Forbidden` whenever the actor
targets their own id, admins included; a successful removal implies the
actor is an admin targeting someone else; and on every `Forbidden` outcome
the repository is left untouched. -/
theorem remove_no_self_delete (repo : List User) (id : String)
    (actor : User) :
    (actor.id = id →
      ∃ msg, (UsersService.remove repo id actor).1
        = .error (.Forbidden msg))
    ∧ (∀ repo2, UsersService.remove repo id actor = (.ok (), repo2) →
        actor.role = UserRole.ADMIN ∧ actor.id ≠ id)
    ∧ (∀ msg, (UsersService.remove repo id actor).1
          = .error (.Forbidden msg) →
        (UsersService.remove repo id actor).2 = repo) := by
  refine ⟨fun hid => ?_, fun repo2 heq => ?_, fun msg h => ?_⟩
  · by_cases hrole : actor.role = UserRole.ADMIN
    · exact ⟨"You cannot delete your own account",
        by simp [UsersService.remove, hrole, hid]⟩
    · exact ⟨"Only admins can delete users",
        by simp [UsersService.remove, hrole]⟩
  · by_cases hrole : actor.role = UserRole.ADMIN
    · by_cases hid : actor.id = id
      · simp [UsersService.remove, hrole, hid] at heq
      · exact ⟨hrole, hid⟩
    · simp [UsersService.remove, hrole] at heq
  · by_cases hrole : actor.role = UserRole.ADMIN
    · by_cases hid : actor.id = id
      · simp [UsersService.remove, hrole, hid]
      · cases hfind : repo.find? (fun u => u.id == id) with
        | none => simp [UsersService.remove, hrole, hid, hfind]
        | some u => simp [UsersService.remove, hrole, hid, hfind] at h
    · simp [UsersService.remove, hrole]

/-- Witness for C10 at a concrete input: an admin deleting their own account
is denied with `Forbidden`. -/
theorem remove_no_self_delete_witness :
    ∃ msg, (UsersService.remove [] "a1"
        ⟨"a1", "a@b.c", "pw", "Ada", "Admin", UserRole.ADMIN, true, none⟩).1
      = .error (.Forbidden msg) :=
  (remove_no_self_delete [] "a1"
    ⟨"a1", "a@b.c", "pw", "Ada", "Admin", UserRole.ADMIN, true, none⟩).1 rfl

/-- C8: `softDelete` with `clearContent = true` followed by `restore` yields
a comment with `isDeleted = false` and `deletedAt` cleared, but the content
remains the placeholder `[deleted]`: whenever the pre-delete content
differed from the placeholder it is not recovered — it is permanently lost
on this path. -/
theorem softDelete_restore_loses_content (c : Comment) (now : Nat) :
    ((c.softDelete true now).restore).isDeleted = false
    ∧ ((c.softDelete true now).restore).deletedAt = none
    ∧ ((c.softDelete true now).restore).content = "[deleted]"
    ∧ (c.content ≠ "[deleted]" →
        ((c.softDelete true now).restore).content ≠ c.content) :=
  ⟨rfl, rfl, rfl, fun h hh => h hh.symm⟩

/-- Witness for C8 at a concrete input: a comment reading `hello` does not
get its content back after soft-delete-with-clear and restore. -/
theorem softDelete_restore_loses_content_witness :
    (((⟨"c1", "t1", "u1", none, "hello", false, false, none, 0, 0⟩
          : Comment).softDelete true 7).restore).content
      ≠ (⟨"c1", "t1", "u1", none, "hello", false, false, none, 0, 0⟩
          : Comment).content :=
  (softDelete_restore_loses_content
    ⟨"c1", "t1", "u1", none, "hello", false, false, none, 0, 0⟩ 7).2.2.2
    (by decide)
